import Mathlib

/-!
Verification development for the playoracle-backend data-aggregation and
confidence-scoring core.

Numbers are modelled as rationals (Python floats/ints become `ℚ`), dictionary
keys that may be absent become `Option` fields, and timestamps become rational
clock readings.  Every definition is a direct translation of the corresponding
Python function in `src/app/services/...`; doc comments name the source symbol.
-/

set_option maxHeartbeats 1000000

/-- Python truthiness-based `x or d` for an optional numeric value:
`None` and `0`/`0.0` are falsy, so both select the default `d`. -/
def pyOr (v : Option ℚ) (d : ℚ) : ℚ :=
  match v with
  | some x => if x = 0 then d else x
  | none => d

/-- Python `min(a, b)` on numbers (kernel-reducible, unlike Mathlib `min` on `ℚ`). -/
def pymin (a b : ℚ) : ℚ :=
  if a ≤ b then a else b

/-- Python `max(a, b)` on numbers. -/
def pymax (a b : ℚ) : ℚ :=
  if a ≤ b then b else a

/-- Python `int(q)` : truncation toward zero. -/
def pyInt (q : ℚ) : ℚ :=
  if 0 ≤ q then (⌊q⌋ : ℚ) else (⌈q⌉ : ℚ)

/-- Python `round(q)` (banker's rounding: half to even), as used by
`round(x, 2)` in `MMADCIService._normalize_score`. -/
def pyRound (q : ℚ) : ℤ :=
  let f := ⌊q⌋
  let r := q - f
  if r < 1/2 then f
  else if 1/2 < r then f + 1
  else if f % 2 = 0 then f else f + 1

/-- Python `round(q, 2)`. -/
def round2 (q : ℚ) : ℚ :=
  (pyRound (q * 100) : ℚ) / 100

namespace BoxingDCIService

/-- A fighter dictionary passed to `BoxingDCIService` (`src/app/services/dci_service.py`).
Each stat key may be absent (`none`); values are numeric. -/
structure Fighter where
  name : Option String := none
  age : Option ℚ := none
  record_wins : Option ℚ := none
  record_losses : Option ℚ := none
  record_draws : Option ℚ := none
  ko_pct : Option ℚ := none
  ko_wins : Option ℚ := none
  ko_losses : Option ℚ := none
  reach_cm : Option ℚ := none
  power_idx : Option ℚ := none
  speed_idx : Option ℚ := none
  stamina_idx : Option ℚ := none
  defense_idx : Option ℚ := none
  win_streak : Option ℚ := none
  recent_ko_wins : Option ℚ := none
  recent_fight_frequency : Option ℚ := none
  recent_distance_fights : Option ℚ := none
deriving DecidableEq

/-- The factor map built by `BoxingDCIService._extract_fighter_factors`. -/
structure Factors where
  power_index : ℚ
  speed_index : ℚ
  stamina_index : ℚ
  defense_score : ℚ
  age_factor : ℚ
  experience : ℚ
  win_streak_score : ℚ
  reach_cm : Option ℚ
  ko_pct : ℚ
  record_wins : ℚ
  record_losses : ℚ
  total_fights : ℚ
deriving DecidableEq

/-- `BoxingDCIService.normalize` (dci_service.py:30-35). -/
def normalize (value min_val max_val : ℚ) : ℚ :=
  if max_val = min_val then 50
  else pymax 0 (pymin 100 ((value - min_val) / (max_val - min_val) * 100))

/-- `BoxingDCIService.derive_power_index` (dci_service.py:37-46).
`ko_pct` is `Optional[float]`. -/
def derive_power_index (ko_pct : Option ℚ) (recent_ko_wins : ℚ) : ℚ :=
  let base_power := match ko_pct with
    | some v => v
    | none => 50
  let ko_bonus := pymin (recent_ko_wins * 5) 20
  pymin 100 (base_power + ko_bonus)

/-- `BoxingDCIService.derive_speed_index` (dci_service.py:48-66). -/
def derive_speed_index (age : Option ℚ) (recent_fight_frequency : ℚ) : ℚ :=
  let a := age.getD 28
  let age_factor : ℚ :=
    if a < 22 then 70
    else if a ≤ 28 then 85
    else if a ≤ 32 then 75
    else if a ≤ 35 then 60
    else 45
  let activity_bonus := pymin (recent_fight_frequency * 3) 15
  pymin 100 (age_factor + activity_bonus)

/-- `BoxingDCIService.derive_stamina_index` (dci_service.py:68-73). -/
def derive_stamina_index (decision_wins_share recent_distance_fights : ℚ) : ℚ :=
  let base_stamina := decision_wins_share * 100
  let distance_bonus := pymin (recent_distance_fights * 5) 20
  pymin 100 (base_stamina + distance_bonus)

/-- `BoxingDCIService.derive_defense_score` (dci_service.py:75-83). -/
def derive_defense_score (ko_losses_share total_losses : ℚ) : ℚ :=
  if total_losses = 0 then 90
  else
    let ko_defense := (1 - ko_losses_share) * 100
    let loss_penalty := pymin (total_losses * 2) 20
    pymax 30 (ko_defense - loss_penalty)

/-- `BoxingDCIService.calculate_reach_advantage` (dci_service.py:85-92). -/
def calculate_reach_advantage (reach_cm_f1 reach_cm_f2 : Option ℚ) : ℚ :=
  match reach_cm_f1, reach_cm_f2 with
  | some r1, some r2 => normalize (r1 - r2) (-15) 15
  | _, _ => 50

/-- `BoxingDCIService.calculate_age_factor` (dci_service.py:94-111). -/
def calculate_age_factor (age : Option ℚ) : ℚ :=
  match age with
  | none => 50
  | some a =>
    if 28 ≤ a ∧ a ≤ 32 then 100
    else if 25 ≤ a ∧ a < 28 then 90
    else if 32 < a ∧ a ≤ 35 then 85
    else if 22 ≤ a ∧ a < 25 then 75
    else if 35 < a ∧ a ≤ 38 then 60
    else 40

/-- `BoxingDCIService.calculate_experience_factor` (dci_service.py:113-116). -/
def calculate_experience_factor (total_fights : ℚ) : ℚ :=
  pymin 100 (total_fights / 30 * 100)

/-- `BoxingDCIService.calculate_win_streak_score` (dci_service.py:118-121). -/
def calculate_win_streak_score (win_streak : ℚ) : ℚ :=
  pymin 100 (pymin win_streak 7 / 7 * 100)

/-- `BoxingDCIService._extract_fighter_factors` (dci_service.py:159-204). -/
def extract_fighter_factors (fighter : Fighter) : Factors :=
  let age := fighter.age
  let record_wins := (fighter.record_wins).getD 0
  let record_losses := (fighter.record_losses).getD 0
  let record_draws := (fighter.record_draws).getD 0
  let reach_cm := fighter.reach_cm
  let total_fights := record_wins + record_losses + record_draws
  let ko_pct : Option ℚ :=
    if fighter.ko_pct = none ∧ total_fights > 0 then
      let ko_wins := (fighter.ko_wins).getD (pyInt (record_wins * 0.6))
      some (if total_fights > 0 then ko_wins / total_fights * 100 else 50)
    else fighter.ko_pct
  let decision_wins := record_wins - (fighter.ko_wins).getD (pyInt (record_wins * 0.6))
  let decision_wins_share := if record_wins > 0 then decision_wins / record_wins else 0.3
  let ko_losses := (fighter.ko_losses).getD (pyInt (record_losses * 0.4))
  let ko_losses_share := if record_losses > 0 then ko_losses / record_losses else 0
  let win_streak := (fighter.win_streak).getD 0
  { power_index := pyOr fighter.power_idx
      (derive_power_index ko_pct ((fighter.recent_ko_wins).getD 0))
    speed_index := pyOr fighter.speed_idx
      (derive_speed_index age ((fighter.recent_fight_frequency).getD 0))
    stamina_index := pyOr fighter.stamina_idx
      (derive_stamina_index decision_wins_share ((fighter.recent_distance_fights).getD 0))
    defense_score := pyOr fighter.defense_idx
      (derive_defense_score ko_losses_share record_losses)
    age_factor := calculate_age_factor age
    experience := calculate_experience_factor total_fights
    win_streak_score := calculate_win_streak_score win_streak
    reach_cm := reach_cm
    ko_pct := pyOr ko_pct 50
    record_wins := record_wins
    record_losses := record_losses
    total_fights := total_fights }

/-- `BoxingDCIService._calculate_fighter_dci` (dci_service.py:206-230). -/
def calculate_fighter_dci (fighter_factors opponent_factors : Factors) : ℚ :=
  let reach_advantage := calculate_reach_advantage fighter_factors.reach_cm opponent_factors.reach_cm
  let dci :=
    fighter_factors.power_index * 0.25 +
    fighter_factors.speed_index * 0.20 +
    fighter_factors.stamina_index * 0.15 +
    reach_advantage * 0.10 +
    fighter_factors.defense_score * 0.10 +
    fighter_factors.win_streak_score * 0.10 +
    fighter_factors.age_factor * 0.05 +
    fighter_factors.experience * 0.05
  pymax 0 (pymin 100 dci)

/-- `BoxingDCIService._classify_dci` (dci_service.py:232-242). -/
def classify_dci (score : ℚ) : String :=
  if score ≥ 85 then "Dominant Edge"
  else if score ≥ 65 then "Balanced Advantage"
  else if score ≥ 50 then "Even Matchup"
  else "Potential Upset"

/-- `BoxingDCIService._generate_reasoning` (dci_service.py:244-280), modelled as the
ordered list of triggered phrases (the numeric interpolation inside each phrase and
the leading fighter-name prefix are presentational and elided). -/
def generate_reasoning (fighter_factors opponent_factors : Factors) : List String :=
  let l0 : List String := []
  let l1 := if fighter_factors.power_index > 75 then l0 ++ ["strong power index"] else l0
  let l2 := if fighter_factors.ko_pct > 70 then l1 ++ ["high KO rate"] else l1
  let reach_diff := pyOr fighter_factors.reach_cm 0 - pyOr opponent_factors.reach_cm 0
  let l3 :=
    if reach_diff > 5 then l2 ++ ["reach advantage"]
    else if reach_diff < -5 then l2 ++ ["reach disadvantage"]
    else l2
  let l4 := if fighter_factors.defense_score > 80 then l3 ++ ["excellent defense"]
    else if fighter_factors.defense_score < 50 then l3 ++ ["defensive vulnerabilities"]
    else l3
  let l5 := if fighter_factors.win_streak_score > 70 then l4 ++ ["strong win streak"] else l4
  let l6 := if fighter_factors.stamina_index > 80 then l5 ++ ["superior stamina"] else l5
  let l7 :=
    if fighter_factors.experience > opponent_factors.experience + 20 then
      l6 ++ ["experience advantage"]
    else if fighter_factors.experience < opponent_factors.experience - 20 then
      l6 ++ ["experience disadvantage"]
    else l6
  if l7 = [] then ["balanced attributes"] else l7

/-- `DCIResult` (dci_service.py:11-25), with `reasoning` as the phrase list. -/
structure DCIResult where
  score : ℚ
  classification : String
  reasoning : List String
  factors : Factors
deriving DecidableEq

/-- `BoxingDCIService.compute_dci` (dci_service.py:123-157). -/
def compute_dci (fighter_one fighter_two : Fighter) : DCIResult × DCIResult :=
  let f1_factors := extract_fighter_factors fighter_one
  let f2_factors := extract_fighter_factors fighter_two
  let f1_dci := calculate_fighter_dci f1_factors f2_factors
  let f2_dci := calculate_fighter_dci f2_factors f1_factors
  let f1_reasoning := generate_reasoning f1_factors f2_factors
  let f2_reasoning := generate_reasoning f2_factors f1_factors
  ( { score := f1_dci, classification := classify_dci f1_dci,
      reasoning := f1_reasoning, factors := f1_factors },
    { score := f2_dci, classification := classify_dci f2_dci,
      reasoning := f2_reasoning, factors := f2_factors } )

end BoxingDCIService

namespace MMADCIService

/-- A fighter dictionary passed to `MMADCIService` (`src/app/services/mma_intel.py`).
Each stat key may be absent (`none`); values are numeric. -/
structure Fighter where
  name : Option String := none
  strike_accuracy : Option ℚ := none
  total_strikes : Option ℚ := none
  landed_strikes : Option ℚ := none
  takedown_success : Option ℚ := none
  takedowns_attempted : Option ℚ := none
  takedowns_landed : Option ℚ := none
  stamina_index : Option ℚ := none
  total_fights : Option ℚ := none
  finishes : Option ℚ := none
  significant_strikes_per_min : Option ℚ := none
  defense_efficiency : Option ℚ := none
  strikes_absorbed_per_min : Option ℚ := none
  reach_cm : Option ℚ := none
  win_streak : Option ℚ := none
  age : Option ℚ := none
deriving DecidableEq

/-- The factor map built by `MMADCIService._extract_factors`. -/
structure Factors where
  strike_accuracy : ℚ
  takedown_success : ℚ
  stamina : ℚ
  significant_strikes : ℚ
  defense_efficiency : ℚ
  reach_advantage : ℚ
  recent_win_streak : ℚ
  age_experience_factor : ℚ
deriving DecidableEq

/-- `MMADCIService._extract_factors` (mma_intel.py:68-128). -/
def extract_factors (fighter opponent : Fighter) : Factors :=
  let strike_accuracy :=
    match fighter.strike_accuracy with
    | some v => v
    | none =>
      let total_strikes := (fighter.total_strikes).getD 0
      let landed_strikes := (fighter.landed_strikes).getD 0
      if total_strikes > 0 then landed_strikes / total_strikes * 100 else 50
  let takedown_success :=
    match fighter.takedown_success with
    | some v => v
    | none =>
      let takedowns_attempted := (fighter.takedowns_attempted).getD 0
      let takedowns_landed := (fighter.takedowns_landed).getD 0
      if takedowns_attempted > 0 then takedowns_landed / takedowns_attempted * 100 else 50
  let stamina :=
    match fighter.stamina_index with
    | some v => v
    | none =>
      let fights := (fighter.total_fights).getD 10
      let finishes := (fighter.finishes).getD 5
      pymin 100 (pymax 0 (50 + (fights - finishes) * 2))
  let significant_strikes := (fighter.significant_strikes_per_min).getD 3.5
  let defense_efficiency :=
    match fighter.defense_efficiency with
    | some v => v
    | none =>
      let strikes_absorbed := (fighter.strikes_absorbed_per_min).getD 3
      pymax 0 (100 - strikes_absorbed * 10)
  let fighter_reach := (fighter.reach_cm).getD 180
  let opponent_reach := (opponent.reach_cm).getD 180
  let reach_diff := fighter_reach - opponent_reach
  let reach_advantage := pymin 100 (pymax 0 (50 + reach_diff / 2))
  let win_streak := (fighter.win_streak).getD 0
  let recent_wins := pymin 100 (win_streak * 20)
  let age := (fighter.age).getD 28
  let fights := (fighter.total_fights).getD 10
  let age_experience : ℚ :=
    50 + (if 24 ≤ age ∧ age ≤ 32 then 20 else 0) +
      (if fights > 15 then 15 else if fights > 10 then 10 else 0)
  let age_experience := pymin 100 age_experience
  { strike_accuracy := strike_accuracy
    takedown_success := takedown_success
    stamina := stamina
    significant_strikes := significant_strikes * 10
    defense_efficiency := defense_efficiency
    reach_advantage := reach_advantage
    recent_win_streak := recent_wins
    age_experience_factor := age_experience }

/-- `MMADCIService._calculate_score` (mma_intel.py:130-142). -/
def calculate_score (factors : Factors) : ℚ :=
  factors.strike_accuracy * 0.20 +
  factors.takedown_success * 0.15 +
  factors.stamina * 0.15 +
  factors.significant_strikes * 0.10 +
  factors.defense_efficiency * 0.10 +
  factors.reach_advantage * 0.10 +
  factors.recent_win_streak * 0.10 +
  factors.age_experience_factor * 0.10

/-- `MMADCIService._normalize_score` (mma_intel.py:144-151). -/
def normalize_score (score opponent_score : ℚ) : ℚ :=
  let total := score + opponent_score
  if total = 0 then 50
  else round2 (score / total * 100)

/-- `MMADCIService._get_classification` (mma_intel.py:153-163). -/
def get_classification (score : ℚ) : String :=
  if score ≥ 85 then "Dominant Edge"
  else if score ≥ 65 then "Technical Advantage"
  else if score ≥ 50 then "Balanced Match"
  else "Potential Upset"

/-- `MMADCIService._generate_reasoning` (mma_intel.py:165-183), modelled as the list of
triggered strength phrases (the surrounding sentence template is presentational). -/
def generate_reasoning (factors : Factors) : List String :=
  let s0 : List String := []
  let s1 := if factors.strike_accuracy > 70 then s0 ++ ["elite striking accuracy"] else s0
  let s2 := if factors.takedown_success > 70 then s1 ++ ["dominant wrestling"] else s1
  let s3 := if factors.defense_efficiency > 70 then s2 ++ ["exceptional defense"] else s2
  let s4 := if factors.recent_win_streak > 60 then s3 ++ ["strong momentum"] else s3
  if s4 = [] then ["balanced skillset"] else s4

/-- One element of the result pair built by `MMADCIService.compute_dci`. -/
structure DCIResult where
  fighter_name : String
  dci_score : ℚ
  classification : String
  factors : Factors
  reasoning : List String
deriving DecidableEq

/-- `MMADCIService.compute_dci` (mma_intel.py:26-66). -/
def compute_dci (fighter_one fighter_two : Fighter) : DCIResult × DCIResult :=
  let f1_factors := extract_factors fighter_one fighter_two
  let f2_factors := extract_factors fighter_two fighter_one
  let f1_score := calculate_score f1_factors
  let f2_score := calculate_score f2_factors
  let f1_normalized := normalize_score f1_score f2_score
  let f2_normalized := normalize_score f2_score f1_score
  ( { fighter_name := (fighter_one.name).getD "Fighter 1"
      dci_score := f1_normalized
      classification := get_classification f1_normalized
      factors := f1_factors
      reasoning := generate_reasoning f1_factors },
    { fighter_name := (fighter_two.name).getD "Fighter 2"
      dci_score := f2_normalized
      classification := get_classification f2_normalized
      factors := f2_factors
      reasoning := generate_reasoning f2_factors } )

end MMADCIService

/-- A Python exception value raised (or re-raised) by the provider layer.
The repository defines no typed failure variants such as `RateLimited`;
failures surface as these exceptions. -/
inductive PyExc
  | httpStatusError (code : ℕ)
  | timeoutError
  | generic (msg : String)
deriving DecidableEq

namespace TheSportsDBClient

/-- The outcome of a single `self._client.get(url)` call inside
`TheSportsDBClient._request`, as its `try/except` arms classify it:
a 2xx response with parsed JSON body, a non-2xx status (for which
`raise_for_status` throws `httpx.HTTPStatusError`), an `httpx.TimeoutException`,
or any other exception. -/
inductive HttpResp (α : Type)
  | success (body : α)
  | status (code : ℕ)
  | timeout
  | failure (msg : String)
deriving DecidableEq

/-- The retry loop of `TheSportsDBClient._request`
(`src/app/services/providers/thesportsdb_client.py:33-66`).

`responses n` is what the `n`-th GET (0-based) would return; `fuel` is the
number of loop iterations left out of `range(max_retries)` and `attempt` the
current 0-based attempt index.  The result pairs the number of GET calls made
with either the parsed body or the Python exception that propagates: on 429 the
loop sleeps and retries, on any other non-2xx it re-raises `HTTPStatusError`,
on timeout it retries unless this was the last iteration, any other exception
is re-raised, and a loop that exhausts its iterations raises the generic
`Exception("Max retries exceeded")`. -/
def request_loop (responses : ℕ → HttpResp α) (max_retries : ℕ) :
    (fuel attempt : ℕ) → ℕ × Except PyExc α
  | 0, attempt => (attempt, .error (.generic "Max retries exceeded"))
  | fuel + 1, attempt =>
    match responses attempt with
    | .success body => (attempt + 1, .ok body)
    | .status code =>
      if code = 429 then request_loop responses max_retries fuel (attempt + 1)
      else (attempt + 1, .error (.httpStatusError code))
    | .timeout =>
      if attempt < max_retries - 1 then request_loop responses max_retries fuel (attempt + 1)
      else (attempt + 1, .error .timeoutError)
    | .failure msg => (attempt + 1, .error (.generic msg))

/-- `TheSportsDBClient._request`: run the `for attempt in range(self.max_retries)`
loop from attempt 0.  First component: total number of HTTP GET calls made. -/
def request (responses : ℕ → HttpResp α) (max_retries : ℕ) : ℕ × Except PyExc α :=
  request_loop responses max_retries max_retries 0

/-- The JSON envelope returned by the schedule endpoint: `data.get("events", [])`
yields the list under the `"events"` key, `[]` when the key is missing, and
`None` (handled by the trailing `or []`) when the key is JSON `null`; `none`
here covers the missing/null cases. -/
structure EventsEnv (ε : Type) where
  events : Option (List ε)
deriving DecidableEq

/-- `TheSportsDBClient.get_upcoming_events_by_league`
(thesportsdb_client.py:68-75): unwrap the envelope, and catch every exception
from `_request`, returning the empty list instead. -/
def get_upcoming_events_by_league (r : Except PyExc (EventsEnv ε)) : List ε :=
  match r with
  | .ok data => (data.events).getD []
  | .error _ => []

end TheSportsDBClient

namespace SportsIntelAggregator

/-- A raw TheSportsDB event record, restricted to the keys
`_merge_event_data` reads. -/
structure RawEvent where
  idEvent : Option String := none
  strLeague : Option String := none
  strHomeTeam : Option String := none
  strAwayTeam : Option String := none
  dateEvent : Option String := none
  strVenue : Option String := none
deriving DecidableEq

/-- The merged event dictionary built by `SportsIntelAggregator._merge_event_data`
and by `_get_mock_schedule` (`src/app/services/sports_intel.py`).  Keys present in
only one of the two shapes are `Option`-valued. -/
structure MergedEvent where
  id : Option String
  sport_type : String
  league : Option String
  home_team : Option String
  away_team : Option String
  start_time : Option String
  venue : Option String
  sources_used : List String
  premium_data_available : Bool
  missing_fields : Option (List String)
  merged_payload : Option RawEvent
  mock_data : Option Bool
deriving DecidableEq

/-- `datetime.isoformat()` of a rational clock reading (hours); an injective
textual rendering standing in for the ISO-8601 string. -/
def isoformat (t : ℚ) : String :=
  toString t.num ++ "/" ++ toString t.den

/-- Modelled from the spec: the `SportsCache` ORM row.  The model class is
imported by `sports_intel.py` but is not part of src/ (only its caller is);
spec §3 gives its shape — CacheEntry `(key, payload, createdAt, expiresAt)`,
owned exclusively by the cache store, one entry per cache key, overwritten
(not appended) on refresh.  The store is therefore a map from key to entry,
and the `created_at` column default (set on insert) is the current time. -/
structure CacheEntry where
  payload : List MergedEvent
  created_at : ℚ
  expires_at : ℚ
deriving DecidableEq

/-- The cache store: one entry per cache key (spec §3/§4.2). -/
def CacheState := String → Option CacheEntry

/-- `SportsIntelAggregator._get_from_cache` (sports_intel.py:236-243):
return the stored payload only when the entry exists and its `expires_at`
is strictly in the future; the record itself is never deleted. -/
def get_from_cache (db : CacheState) (now : ℚ) (cache_key : String) :
    Option (List MergedEvent) :=
  match db cache_key with
  | some cached => if cached.expires_at > now then some cached.payload else none
  | none => none

/-- `SportsIntelAggregator._save_to_cache` (sports_intel.py:245-263):
overwrite the entry for the key (or insert a fresh one), resetting the
payload, `created_at` and `expires_at = now + ttl_hours`. -/
def save_to_cache (db : CacheState) (now : ℚ) (cache_key : String)
    (data : List MergedEvent) (ttl_hours : ℚ) : CacheState :=
  let expires_at := now + ttl_hours
  fun k => if k = cache_key then some ⟨data, now, expires_at⟩ else db k

/-- `LEAGUE_IDS` (thesportsdb_client.py:169-178).  The `"boxing"` entry is
Python `None`, which `if not league_id` treats exactly like a missing key. -/
def LEAGUE_IDS (sport : String) : Option String :=
  if sport = "nfl" then some "4391"
  else if sport = "nba" then some "4387"
  else if sport = "mlb" then some "4424"
  else if sport = "nhl" then some "4380"
  else if sport = "premier_league" then some "4328"
  else if sport = "formula1" then some "4370"
  else if sport = "ncaa_football" then some "4391"
  else none

/-- The aggregator's configuration: the provider API key, and the transport
behaviour — what `TheSportsDBClient._request` would produce for the
schedule endpoint of each league id. -/
structure Aggregator where
  thesportsdb_api_key : String
  provider : String → Except PyExc (TheSportsDBClient.EventsEnv RawEvent)

/-- `self.use_mock = settings.thesportsdb_api_key == "3" or not
settings.thesportsdb_api_key` (sports_intel.py:25; empty string is falsy). -/
def use_mock (a : Aggregator) : Bool :=
  a.thesportsdb_api_key == "3" || a.thesportsdb_api_key == ""

/-- `SportsIntelAggregator._merge_event_data` (sports_intel.py:66-80). -/
def merge_event_data (event : RawEvent) (sport : String) : MergedEvent :=
  { id := event.idEvent
    sport_type := sport
    league := event.strLeague
    home_team := event.strHomeTeam
    away_team := event.strAwayTeam
    start_time := event.dateEvent
    venue := event.strVenue
    sources_used := ["thesportsdb"]
    premium_data_available := false
    missing_fields := some []
    merged_payload := some event
    mock_data := none }

/-- `SportsIntelAggregator._fetch_schedule_from_providers` (sports_intel.py:48-64). -/
def fetch_schedule_from_providers (a : Aggregator) (sport : String) : List MergedEvent :=
  let league_id := LEAGUE_IDS (sport.toLower)
  match league_id with
  | none => []
  | some lid =>
    if lid = "" then []
    else
      let events := TheSportsDBClient.get_upcoming_events_by_league (a.provider lid)
      events.map (fun event => merge_event_data event sport)

/-- `SportsIntelAggregator._get_mock_schedule` (sports_intel.py:265-294):
two fixed events whose `start_time` fields are one and two days after `now`. -/
def get_mock_schedule (sport : String) (now : ℚ) : List MergedEvent :=
  [ { id := some ("mock-" ++ sport ++ "-1")
      sport_type := sport
      league := some (sport.toUpper ++ " League")
      home_team := some "Team A"
      away_team := some "Team B"
      start_time := some (isoformat (now + 24))
      venue := some "Stadium A"
      sources_used := ["mock"]
      premium_data_available := false
      missing_fields := none
      merged_payload := none
      mock_data := some true },
    { id := some ("mock-" ++ sport ++ "-2")
      sport_type := sport
      league := some (sport.toUpper ++ " League")
      home_team := some "Team C"
      away_team := some "Team D"
      start_time := some (isoformat (now + 48))
      venue := some "Stadium B"
      sources_used := ["mock"]
      premium_data_available := false
      missing_fields := none
      merged_payload := none
      mock_data := some true } ]

/-- `SportsIntelAggregator.fetch_schedule` (sports_intel.py:29-46).
`now` is the current clock reading in hours; the result pairs the returned
event list with the cache store after the call.  The `if cached:` check uses
Python list truthiness: a cached `None` (miss/expired) and a cached empty
list both fall through to the fetch path. -/
def fetch_schedule (a : Aggregator) (db : CacheState) (now : ℚ)
    (sport : String) (use_cache : Bool) : List MergedEvent × CacheState :=
  let cache_key := "schedule:" ++ sport
  let hit : Option (List MergedEvent) :=
    if use_cache then
      match get_from_cache db now cache_key with
      | some cached => if cached = [] then none else some cached
      | none => none
    else none
  match hit with
  | some cached => (cached, db)
  | none =>
    let events :=
      if use_mock a then get_mock_schedule sport now
      else fetch_schedule_from_providers a sport
    (events, save_to_cache db now cache_key events 12)

/-- An aggregator with a real (non-mock) API key whose provider transport
always fails with HTTP 500 (`ServerError`). -/
def failingAggregator : Aggregator :=
  ⟨"live-key", fun _ => .error (.httpStatusError 500)⟩

/-- An aggregator in mock mode (the default API key `"3"`). -/
def mockAggregator : Aggregator :=
  ⟨"3", fun _ => .error (.generic "unused")⟩

/-- A cache store holding one unexpired entry with an empty payload under the
NBA schedule key. -/
def cachedEmptyDb : CacheState :=
  fun k => if k = "schedule:" ++ "nba" then some ⟨[], 0, 12⟩ else none

end SportsIntelAggregator

/-! ### Exception-aware variants of the scoring computations

Python division raises `ZeroDivisionError` on a zero denominator.  To settle
whether the scoring engines can raise, the division sites of
`_extract_fighter_factors` / `_extract_factors` / the normalizers are
re-traced in an error monad; every other arithmetic operation is total in
Python as well. -/

/-- Division as Python performs it: `ZeroDivisionError` on a zero denominator. -/
def sdiv (a b : ℚ) : Except String ℚ :=
  if b = 0 then .error "ZeroDivisionError" else .ok (a / b)

namespace BoxingDCIService

/-- `BoxingDCIService.normalize` with its division made fallible. -/
def normalize_checked (value min_val max_val : ℚ) : Except String ℚ :=
  if max_val = min_val then pure 50
  else do
    let q ← sdiv (value - min_val) (max_val - min_val)
    pure (pymax 0 (pymin 100 (q * 100)))

/-- `BoxingDCIService.calculate_reach_advantage` with its division made fallible. -/
def calculate_reach_advantage_checked (reach_cm_f1 reach_cm_f2 : Option ℚ) :
    Except String ℚ :=
  match reach_cm_f1, reach_cm_f2 with
  | some r1, some r2 => normalize_checked (r1 - r2) (-15) 15
  | _, _ => pure 50

/-- `BoxingDCIService.calculate_experience_factor` with its division made fallible. -/
def calculate_experience_factor_checked (total_fights : ℚ) : Except String ℚ := do
  let q ← sdiv total_fights 30
  pure (pymin 100 (q * 100))

/-- `BoxingDCIService.calculate_win_streak_score` with its division made fallible. -/
def calculate_win_streak_score_checked (win_streak : ℚ) : Except String ℚ := do
  let q ← sdiv (pymin win_streak 7) 7
  pure (pymin 100 (q * 100))

/-- `BoxingDCIService._extract_fighter_factors` with each division site made
fallible, exactly as guarded in the source. -/
def extract_fighter_factors_checked (fighter : Fighter) : Except String Factors := do
  let age := fighter.age
  let record_wins := (fighter.record_wins).getD 0
  let record_losses := (fighter.record_losses).getD 0
  let record_draws := (fighter.record_draws).getD 0
  let reach_cm := fighter.reach_cm
  let total_fights := record_wins + record_losses + record_draws
  let ko_pct : Option ℚ ←
    if fighter.ko_pct = none ∧ total_fights > 0 then do
      let ko_wins := (fighter.ko_wins).getD (pyInt (record_wins * 0.6))
      if total_fights > 0 then do
        let q ← sdiv ko_wins total_fights
        pure (some (q * 100))
      else pure (some 50)
    else pure fighter.ko_pct
  let decision_wins := record_wins - (fighter.ko_wins).getD (pyInt (record_wins * 0.6))
  let decision_wins_share ←
    if record_wins > 0 then sdiv decision_wins record_wins else pure 0.3
  let ko_losses := (fighter.ko_losses).getD (pyInt (record_losses * 0.4))
  let ko_losses_share ←
    if record_losses > 0 then sdiv ko_losses record_losses else pure 0
  let win_streak := (fighter.win_streak).getD 0
  let experience ← calculate_experience_factor_checked total_fights
  let win_streak_score ← calculate_win_streak_score_checked win_streak
  pure
    { power_index := pyOr fighter.power_idx
        (derive_power_index ko_pct ((fighter.recent_ko_wins).getD 0))
      speed_index := pyOr fighter.speed_idx
        (derive_speed_index age ((fighter.recent_fight_frequency).getD 0))
      stamina_index := pyOr fighter.stamina_idx
        (derive_stamina_index decision_wins_share ((fighter.recent_distance_fights).getD 0))
      defense_score := pyOr fighter.defense_idx
        (derive_defense_score ko_losses_share record_losses)
      age_factor := calculate_age_factor age
      experience := experience
      win_streak_score := win_streak_score
      reach_cm := reach_cm
      ko_pct := pyOr ko_pct 50
      record_wins := record_wins
      record_losses := record_losses
      total_fights := total_fights }

/-- `BoxingDCIService._calculate_fighter_dci` with its division sites made fallible. -/
def calculate_fighter_dci_checked (fighter_factors opponent_factors : Factors) :
    Except String ℚ := do
  let reach_advantage ←
    calculate_reach_advantage_checked fighter_factors.reach_cm opponent_factors.reach_cm
  let dci :=
    fighter_factors.power_index * 0.25 +
    fighter_factors.speed_index * 0.20 +
    fighter_factors.stamina_index * 0.15 +
    reach_advantage * 0.10 +
    fighter_factors.defense_score * 0.10 +
    fighter_factors.win_streak_score * 0.10 +
    fighter_factors.age_factor * 0.05 +
    fighter_factors.experience * 0.05
  pure (pymax 0 (pymin 100 dci))

/-- `BoxingDCIService.compute_dci` with every division site made fallible. -/
def compute_dci_checked (fighter_one fighter_two : Fighter) :
    Except String (DCIResult × DCIResult) := do
  let f1_factors ← extract_fighter_factors_checked fighter_one
  let f2_factors ← extract_fighter_factors_checked fighter_two
  let f1_dci ← calculate_fighter_dci_checked f1_factors f2_factors
  let f2_dci ← calculate_fighter_dci_checked f2_factors f1_factors
  let f1_reasoning := generate_reasoning f1_factors f2_factors
  let f2_reasoning := generate_reasoning f2_factors f1_factors
  pure
    ( { score := f1_dci, classification := classify_dci f1_dci,
        reasoning := f1_reasoning, factors := f1_factors },
      { score := f2_dci, classification := classify_dci f2_dci,
        reasoning := f2_reasoning, factors := f2_factors } )

end BoxingDCIService

namespace MMADCIService

/-- `MMADCIService._extract_factors` with each division site made fallible. -/
def extract_factors_checked (fighter opponent : Fighter) : Except String Factors := do
  let strike_accuracy ←
    match fighter.strike_accuracy with
    | some v => pure v
    | none =>
      let total_strikes := (fighter.total_strikes).getD 0
      let landed_strikes := (fighter.landed_strikes).getD 0
      if total_strikes > 0 then do
        let q ← sdiv landed_strikes total_strikes
        pure (q * 100)
      else pure 50
  let takedown_success ←
    match fighter.takedown_success with
    | some v => pure v
    | none =>
      let takedowns_attempted := (fighter.takedowns_attempted).getD 0
      let takedowns_landed := (fighter.takedowns_landed).getD 0
      if takedowns_attempted > 0 then do
        let q ← sdiv takedowns_landed takedowns_attempted
        pure (q * 100)
      else pure 50
  let stamina :=
    match fighter.stamina_index with
    | some v => v
    | none =>
      let fights := (fighter.total_fights).getD 10
      let finishes := (fighter.finishes).getD 5
      pymin 100 (pymax 0 (50 + (fights - finishes) * 2))
  let significant_strikes := (fighter.significant_strikes_per_min).getD 3.5
  let defense_efficiency :=
    match fighter.defense_efficiency with
    | some v => v
    | none =>
      let strikes_absorbed := (fighter.strikes_absorbed_per_min).getD 3
      pymax 0 (100 - strikes_absorbed * 10)
  let fighter_reach := (fighter.reach_cm).getD 180
  let opponent_reach := (opponent.reach_cm).getD 180
  let reach_diff := fighter_reach - opponent_reach
  let reach_advantage ← do
    let q ← sdiv reach_diff 2
    pure (pymin 100 (pymax 0 (50 + q)))
  let win_streak := (fighter.win_streak).getD 0
  let recent_wins := pymin 100 (win_streak * 20)
  let age := (fighter.age).getD 28
  let fights := (fighter.total_fights).getD 10
  let age_experience : ℚ :=
    50 + (if 24 ≤ age ∧ age ≤ 32 then 20 else 0) +
      (if fights > 15 then 15 else if fights > 10 then 10 else 0)
  let age_experience := pymin 100 age_experience
  pure
    { strike_accuracy := strike_accuracy
      takedown_success := takedown_success
      stamina := stamina
      significant_strikes := significant_strikes * 10
      defense_efficiency := defense_efficiency
      reach_advantage := reach_advantage
      recent_win_streak := recent_wins
      age_experience_factor := age_experience }

/-- `MMADCIService._normalize_score` with its division made fallible. -/
def normalize_score_checked (score opponent_score : ℚ) : Except String ℚ :=
  let total := score + opponent_score
  if total = 0 then pure 50
  else do
    let q ← sdiv score total
    pure (round2 (q * 100))

/-- `MMADCIService.compute_dci` with every division site made fallible. -/
def compute_dci_checked (fighter_one fighter_two : Fighter) :
    Except String (DCIResult × DCIResult) := do
  let f1_factors ← extract_factors_checked fighter_one fighter_two
  let f2_factors ← extract_factors_checked fighter_two fighter_one
  let f1_score := calculate_score f1_factors
  let f2_score := calculate_score f2_factors
  let f1_normalized ← normalize_score_checked f1_score f2_score
  let f2_normalized ← normalize_score_checked f2_score f1_score
  pure
    ( { fighter_name := (fighter_one.name).getD "Fighter 1"
        dci_score := f1_normalized
        classification := get_classification f1_normalized
        factors := f1_factors
        reasoning := generate_reasoning f1_factors },
      { fighter_name := (fighter_two.name).getD "Fighter 2"
        dci_score := f2_normalized
        classification := get_classification f2_normalized
        factors := f2_factors
        reasoning := generate_reasoning f2_factors } )

end MMADCIService

/-! ### Shared lemmas -/

/-- Spec §8 tiers: numeric rank of a classification label, shared by both
engines (Potential Upset < Even/Balanced < Balanced/Technical Advantage <
Dominant Edge). -/
def tier (label : String) : ℕ :=
  if label = "Dominant Edge" then 3
  else if label = "Balanced Advantage" ∨ label = "Technical Advantage" then 2
  else if label = "Even Matchup" ∨ label = "Balanced Match" then 1
  else 0

/-- Fighter A of the spec §8 boxing scenario. -/
def fighterA : BoxingDCIService.Fighter :=
  { power_idx := some 95
    speed_idx := some 88
    stamina_idx := some 75
    defense_idx := some 82
    win_streak := some 29
    reach_cm := some 170
    age := some 29
    ko_pct := some 93.1
    name := some "Fighter A" }

/-- Fighter B of the spec §8 boxing scenario. -/
def fighterB : BoxingDCIService.Fighter :=
  { power_idx := some 72
    speed_idx := some 92
    stamina_idx := some 90
    defense_idx := some 88
    win_streak := some 31
    reach_cm := some 178
    age := some 25
    ko_pct := some 48.4
    name := some "Fighter B" }

/-- The first mock UFC fighter from `get_mock_mma_events` (mma_intel.py:197-212). -/
def mmaFighterOne : MMADCIService.Fighter :=
  { name := some "Alex Martinez"
    age := some 29
    reach_cm := some 183
    strike_accuracy := some 68.5
    takedown_success := some 72
    stamina_index := some 85
    significant_strikes_per_min := some 4.2
    defense_efficiency := some 75
    win_streak := some 5
    total_fights := some 27 }

/-- The second mock UFC fighter from `get_mock_mma_events` (mma_intel.py:213-228). -/
def mmaFighterTwo : MMADCIService.Fighter :=
  { name := some "Dmitri Volkov"
    age := some 27
    reach_cm := some 180
    strike_accuracy := some 71.2
    takedown_success := some 65
    stamina_index := some 82
    significant_strikes_per_min := some 3.8
    defense_efficiency := some 78
    win_streak := some 6
    total_fights := some 24 }

/-- A supplied optional stat value is non-negative (an absent key imposes
nothing: `getD 0`). -/
def nn (v : Option ℚ) : Prop := 0 ≤ v.getD 0

/-- Spec §8 "valid stat bundle" for the MMA engine, read as: every supplied
numeric stat is non-negative (they are counts, percentages, rates,
centimetres and ages). -/
def MMAValid (f : MMADCIService.Fighter) : Prop :=
  nn f.strike_accuracy ∧ nn f.total_strikes ∧ nn f.landed_strikes ∧
  nn f.takedown_success ∧ nn f.takedowns_attempted ∧ nn f.takedowns_landed ∧
  nn f.stamina_index ∧ nn f.total_fights ∧ nn f.finishes ∧
  nn f.significant_strikes_per_min ∧ nn f.defense_efficiency ∧
  nn f.strikes_absorbed_per_min ∧ nn f.reach_cm ∧ nn f.win_streak ∧ nn f.age

/-! ### Theorems -/

theorem pymin_eq (a b : ℚ) : pymin a b = min a b := by
  unfold pymin
  split_ifs with h
  · exact (min_eq_left h).symm
  · exact (min_eq_right (le_of_not_le h)).symm

theorem pymax_eq (a b : ℚ) : pymax a b = max a b := by
  unfold pymax
  split_ifs with h
  · exact (max_eq_right h).symm
  · exact (max_eq_left (le_of_not_le h)).symm

theorem pyRound_le (q : ℚ) : (pyRound q : ℚ) ≤ q + 1/2 := by
  have hf : ((⌊q⌋ : ℤ) : ℚ) ≤ q := Int.floor_le q
  have hf2 : q < (⌊q⌋ : ℚ) + 1 := Int.lt_floor_add_one q
  simp only [pyRound]
  split_ifs <;> push_cast <;> linarith

theorem le_pyRound (q : ℚ) : q - 1/2 ≤ (pyRound q : ℚ) := by
  have hf : ((⌊q⌋ : ℤ) : ℚ) ≤ q := Int.floor_le q
  have hf2 : q < (⌊q⌋ : ℚ) + 1 := Int.lt_floor_add_one q
  simp only [pyRound]
  split_ifs <;> push_cast <;> linarith

theorem round2_le (q : ℚ) : round2 q ≤ q + 1/200 := by
  have h := pyRound_le (q * 100)
  unfold round2
  linarith

theorem le_round2 (q : ℚ) : q - 1/200 ≤ round2 q := by
  have h := le_pyRound (q * 100)
  unfold round2
  linarith

theorem round2_nonneg {q : ℚ} (h : 0 ≤ q) : 0 ≤ round2 q := by
  have hfl : (0 : ℤ) ≤ ⌊q * 100⌋ := Int.floor_nonneg.mpr (by linarith)
  have hge : ⌊q * 100⌋ ≤ pyRound (q * 100) := by
    simp only [pyRound]
    split_ifs <;> omega
  have : (0 : ℚ) ≤ (pyRound (q * 100) : ℚ) := by exact_mod_cast le_trans hfl hge
  unfold round2
  positivity

theorem round2_le_100 {q : ℚ} (h : q ≤ 100) : round2 q ≤ 100 := by
  have h1 : (pyRound (q * 100) : ℚ) ≤ 10000 + 1/2 := le_trans (pyRound_le _) (by linarith)
  have h2 : pyRound (q * 100) ≤ 10000 := by
    by_contra hc
    push_neg at hc
    have : (10001 : ℚ) ≤ (pyRound (q * 100) : ℚ) := by exact_mod_cast hc
    linarith
  have h3 : (pyRound (q * 100) : ℚ) ≤ 10000 := by exact_mod_cast h2
  unfold round2
  linarith

theorem tier_classify_dci (s : ℚ) :
    tier (BoxingDCIService.classify_dci s) =
      if s ≥ 85 then 3 else if s ≥ 65 then 2 else if s ≥ 50 then 1 else 0 := by
  unfold BoxingDCIService.classify_dci
  split_ifs <;> simp [tier]

theorem tier_get_classification (s : ℚ) :
    tier (MMADCIService.get_classification s) =
      if s ≥ 85 then 3 else if s ≥ 65 then 2 else if s ≥ 50 then 1 else 0 := by
  unfold MMADCIService.get_classification
  split_ifs <;> simp [tier]

/-- C5: for both engines (`BoxingDCIService._classify_dci` and
`MMADCIService._get_classification`) the classification tier is a
non-decreasing function of the score over the thresholds 50/65/85; every
score ≥ 85 is classified "Dominant Edge" and every score < 50 is classified
"Potential Upset". -/
theorem classification_tier_monotone (s t : ℚ) (hst : s ≤ t) :
    (tier (BoxingDCIService.classify_dci s) ≤ tier (BoxingDCIService.classify_dci t) ∧
     tier (MMADCIService.get_classification s) ≤ tier (MMADCIService.get_classification t)) ∧
    (85 ≤ s → BoxingDCIService.classify_dci s = "Dominant Edge" ∧
      MMADCIService.get_classification s = "Dominant Edge") ∧
    (s < 50 → BoxingDCIService.classify_dci s = "Potential Upset" ∧
      MMADCIService.get_classification s = "Potential Upset") := by
  refine ⟨⟨?_, ?_⟩, ?_, ?_⟩
  · rw [tier_classify_dci, tier_classify_dci]
    split_ifs <;> first | omega | linarith
  · rw [tier_get_classification, tier_get_classification]
    split_ifs <;> first | omega | linarith
  · intro h
    constructor
    · unfold BoxingDCIService.classify_dci
      rw [if_pos (by linarith : s ≥ 85)]
    · unfold MMADCIService.get_classification
      rw [if_pos (by linarith : s ≥ 85)]
  · intro h
    constructor
    · unfold BoxingDCIService.classify_dci
      rw [if_neg (by intro hc; exact absurd hc (by linarith) : ¬ s ≥ 85),
        if_neg (by intro hc; exact absurd hc (by linarith) : ¬ s ≥ 65),
        if_neg (by intro hc; exact absurd hc (by linarith) : ¬ s ≥ 50)]
    · unfold MMADCIService.get_classification
      rw [if_neg (by intro hc; exact absurd hc (by linarith) : ¬ s ≥ 85),
        if_neg (by intro hc; exact absurd hc (by linarith) : ¬ s ≥ 65),
        if_neg (by intro hc; exact absurd hc (by linarith) : ¬ s ≥ 50)]

/-- Witness for `classification_tier_monotone` at scores 40 and 90. -/
theorem classification_tier_monotone_witness :
    (40 : ℚ) ≤ 90 ∧
    tier (BoxingDCIService.classify_dci 40) ≤ tier (BoxingDCIService.classify_dci 90) ∧
    BoxingDCIService.classify_dci 40 = "Potential Upset" :=
  ⟨by norm_num, ((classification_tier_monotone 40 90 (by norm_num)).1).1,
    ((classification_tier_monotone 40 90 (by norm_num)).2.2 (by norm_num)).1⟩

theorem request_loop_429 {α : Type} (responses : ℕ → TheSportsDBClient.HttpResp α)
    (hr : ∀ n, responses n = .status 429) (m : ℕ) :
    ∀ fuel attempt, TheSportsDBClient.request_loop responses m fuel attempt =
      (attempt + fuel, .error (.generic "Max retries exceeded")) := by
  intro fuel
  induction fuel with
  | zero =>
    intro attempt
    simp [TheSportsDBClient.request_loop]
  | succ n ih =>
    intro attempt
    rw [TheSportsDBClient.request_loop, hr]
    have hn : attempt + 1 + n = attempt + (n + 1) := by omega
    simp [ih (attempt + 1), hn]

/-- C3 counterexample: with `max_retries = 3` and a provider that always
answers HTTP 429, `_request` performs 3 GET attempts in total — not 4 — and
then raises the untyped `Exception("Max retries exceeded")`; no typed
`RateLimited` failure value exists anywhere in the repository. -/
theorem request_429_counterexample :
    (TheSportsDBClient.request (α := Unit) (fun _ => .status 429) 3).1 = 3 ∧
    ¬ (TheSportsDBClient.request (α := Unit) (fun _ => .status 429) 3).1 = 4 ∧
    (TheSportsDBClient.request (α := Unit) (fun _ => .status 429) 3).2 =
      .error (.generic "Max retries exceeded") := by
  refine ⟨rfl, by decide, rfl⟩

/-- C3 amended: a client with `max_retries = m` facing a provider that always
answers 429 makes exactly `m` attempts in total (for the default `m = 3`:
two retries after the first attempt) and then raises the generic
`Exception("Max retries exceeded")`; the calling accessor
`get_upcoming_events_by_league` catches that exception and returns `[]`. -/
theorem request_always_429_exhausts (m : ℕ) (e : PyExc) :
    TheSportsDBClient.request (α := Unit) (fun _ => .status 429) m =
      (m, .error (.generic "Max retries exceeded")) ∧
    TheSportsDBClient.get_upcoming_events_by_league (ε := Unit) (.error e) = [] := by
  constructor
  · rw [TheSportsDBClient.request, request_loop_429 _ (fun _ => rfl) m m 0]
    simp
  · rfl

namespace SportsIntelAggregator

/-- C6: after `put(key, payload, ttl=T)` at time `now`, a `get(key)` strictly
before the expiry instant `now + T` returns the payload; a `get(key)` at or
after the expiry instant returns `None` while the underlying cache record
still exists (it is not deleted); a second `put` on the same key overwrites
the entry and resets both timestamps. -/
theorem cache_ttl_roundtrip (db : CacheState) (now : ℚ) (key : String)
    (data : List MergedEvent) (T t : ℚ) :
    (t < now + T →
      get_from_cache (save_to_cache db now key data T) t key = some data) ∧
    (now + T ≤ t →
      get_from_cache (save_to_cache db now key data T) t key = none) ∧
    save_to_cache db now key data T key = some ⟨data, now, now + T⟩ ∧
    (∀ (data2 : List MergedEvent) (now2 T2 : ℚ),
      save_to_cache (save_to_cache db now key data T) now2 key data2 T2 key =
        some ⟨data2, now2, now2 + T2⟩) := by
  refine ⟨?_, ?_, ?_, ?_⟩
  · intro h
    simp only [get_from_cache, save_to_cache, if_pos rfl]
    rw [if_pos (by linarith : now + T > t)]
  · intro h
    simp only [get_from_cache, save_to_cache, if_pos rfl]
    rw [if_neg (by intro hc; exact absurd hc (by linarith) : ¬ now + T > t)]
  · simp [save_to_cache]
  · intro data2 now2 T2
    simp [save_to_cache]

/-- Witness for `cache_ttl_roundtrip`: empty store, key `"schedule:nba"`,
TTL 12 hours, reads at t = 5 (hit) and t = 12 (expired but record present). -/
theorem cache_ttl_roundtrip_witness :
    get_from_cache (save_to_cache (fun _ => none) 0 "schedule:nba" [] 12) 5 "schedule:nba" =
      some [] ∧
    get_from_cache (save_to_cache (fun _ => none) 0 "schedule:nba" [] 12) 12 "schedule:nba" =
      none ∧
    save_to_cache (fun _ => none) 0 "schedule:nba" [] 12 "schedule:nba" =
      some ⟨[], 0, 0 + 12⟩ :=
  ⟨(cache_ttl_roundtrip (fun _ => none) 0 "schedule:nba" [] 12 5).1 (by norm_num),
   (cache_ttl_roundtrip (fun _ => none) 0 "schedule:nba" [] 12 12).2.1 (by norm_num),
   (cache_ttl_roundtrip (fun _ => none) 0 "schedule:nba" [] 12 12).2.2.1⟩

/-- C9: an unexpired cached empty list is treated as a cache miss by
`fetch_schedule` (the `if cached:` truthiness check), so the fetch path is
re-executed exactly as with `use_cache=False`; and whenever a payload is
served from the cache (store returned unchanged) it is non-empty. -/
theorem cache_empty_payload_is_miss (a : Aggregator) (db : CacheState) (now : ℚ)
    (sport : String) :
    (get_from_cache db now ("schedule:" ++ sport) = some [] →
      fetch_schedule a db now sport true = fetch_schedule a db now sport false) ∧
    (∀ p, get_from_cache db now ("schedule:" ++ sport) = some p → p ≠ [] →
      fetch_schedule a db now sport true = (p, db)) := by
  constructor
  · intro h
    simp only [fetch_schedule, h, if_pos rfl]
    simp
  · intro p hp hne
    simp only [fetch_schedule, hp, if_pos rfl]
    simp [hne]

theorem get_upcoming_events_by_league_error {ε : Type} (e : PyExc) :
    TheSportsDBClient.get_upcoming_events_by_league (ε := ε) (.error e) = [] := rfl

/-- C2 counterexample: with a real API key configured and a provider that
always fails, `fetch_schedule("nba", use_cache=False)` returns the **empty**
list — not a non-empty mock event list — because
`get_upcoming_events_by_league` swallows the failure into `[]` and
`fetch_schedule` has no mock fallback on the provider path. -/
theorem fetch_schedule_failure_counterexample :
    (fetch_schedule failingAggregator (fun _ => none) 0 "nba" false).1 = [] := by
  simp [fetch_schedule, use_mock, failingAggregator, fetch_schedule_from_providers,
    LEAGUE_IDS, TheSportsDBClient.get_upcoming_events_by_league]
  split <;> rfl

/-- C2 amended: `fetch_schedule(sport, use_cache=False)` never raises, but the
mock fallback exists only for the mock-mode configuration: with a real key and
an always-failing provider the result is the empty list (the client catches
every provider exception and returns `[]`); in mock mode the result is the
non-empty deterministic mock schedule, which is independent of the cache
contents (identical across repeated calls at the same clock reading `now`). -/
theorem fetch_schedule_failure_fallback (a : Aggregator) (db db2 : CacheState)
    (now : ℚ) (sport : String) :
    (use_mock a = false → (∀ lid, ∃ e, a.provider lid = .error e) →
      (fetch_schedule a db now sport false).1 = []) ∧
    (use_mock a = true →
      (fetch_schedule a db now sport false).1 = get_mock_schedule sport now ∧
      get_mock_schedule sport now ≠ [] ∧
      (fetch_schedule a db now sport false).1 = (fetch_schedule a db2 now sport false).1) := by
  constructor
  · intro huse hfail
    simp only [fetch_schedule, huse, Bool.false_eq_true, if_false]
    simp only [fetch_schedule_from_providers]
    cases h : LEAGUE_IDS sport.toLower with
    | none => simp
    | some lid =>
      obtain ⟨e, he⟩ := hfail lid
      simp [he, TheSportsDBClient.get_upcoming_events_by_league]
  · intro huse
    refine ⟨by simp [fetch_schedule, huse], by simp [get_mock_schedule],
      by simp [fetch_schedule, huse]⟩

/-- Witness for `fetch_schedule_failure_fallback`: the failing live-key
aggregator yields `[]`; the mock aggregator yields the mock schedule. -/
theorem fetch_schedule_failure_fallback_witness :
    (fetch_schedule failingAggregator (fun _ => none) 0 "nba" false).1 = [] ∧
    (fetch_schedule mockAggregator (fun _ => none) 0 "nba" false).1 =
      get_mock_schedule "nba" 0 :=
  ⟨(fetch_schedule_failure_fallback failingAggregator (fun _ => none) (fun _ => none)
      0 "nba").1 (by decide) (fun lid => ⟨.httpStatusError 500, rfl⟩),
   ((fetch_schedule_failure_fallback mockAggregator (fun _ => none) (fun _ => none)
      0 "nba").2 (by decide)).1⟩

end SportsIntelAggregator

namespace SportsIntelAggregator

/-- Witness for `cache_empty_payload_is_miss`: an unexpired cached empty list
under the NBA schedule key makes the cached call behave like the uncached one. -/
theorem cache_empty_payload_is_miss_witness :
    get_from_cache cachedEmptyDb 0 ("schedule:" ++ "nba") = some [] ∧
    fetch_schedule mockAggregator cachedEmptyDb 0 "nba" true =
      fetch_schedule mockAggregator cachedEmptyDb 0 "nba" false := by
  have hget : get_from_cache cachedEmptyDb 0 ("schedule:" ++ "nba") = some [] := by
    simp only [get_from_cache, cachedEmptyDb, if_pos rfl]
    norm_num
  exact ⟨hget, (cache_empty_payload_is_miss mockAggregator cachedEmptyDb 0 "nba").1 hget⟩

end SportsIntelAggregator

/-- C10: an explicitly supplied value of `0` for `power_idx`, `speed_idx`,
`stamina_idx` or `defense_idx` is falsy under Python's `or`, so
`_extract_fighter_factors` discards it and uses the derived index instead —
extraction behaves exactly as if the key were absent, for every fighter
dictionary. -/
theorem boxing_zero_idx_is_discarded (f : BoxingDCIService.Fighter) :
    BoxingDCIService.extract_fighter_factors { f with power_idx := some 0 } =
      BoxingDCIService.extract_fighter_factors { f with power_idx := none } ∧
    BoxingDCIService.extract_fighter_factors { f with speed_idx := some 0 } =
      BoxingDCIService.extract_fighter_factors { f with speed_idx := none } ∧
    BoxingDCIService.extract_fighter_factors { f with stamina_idx := some 0 } =
      BoxingDCIService.extract_fighter_factors { f with stamina_idx := none } ∧
    BoxingDCIService.extract_fighter_factors { f with defense_idx := some 0 } =
      BoxingDCIService.extract_fighter_factors { f with defense_idx := none } := by
  refine ⟨?_, ?_, ?_, ?_⟩ <;>
    simp [BoxingDCIService.extract_fighter_factors, pyOr]

theorem sdiv_of_ne (a : ℚ) {b : ℚ} (h : ¬ b = 0) : sdiv a b = .ok (a / b) := by
  simp [sdiv, h]

theorem boxing_normalize_checked_ok (value min_val max_val : ℚ) :
    BoxingDCIService.normalize_checked value min_val max_val =
      .ok (BoxingDCIService.normalize value min_val max_val) := by
  unfold BoxingDCIService.normalize_checked BoxingDCIService.normalize
  split_ifs with h
  · rfl
  · rw [sdiv_of_ne _ (by intro hc; exact h (by linarith))]
    rfl

theorem boxing_reach_checked_ok (r1 r2 : Option ℚ) :
    BoxingDCIService.calculate_reach_advantage_checked r1 r2 =
      .ok (BoxingDCIService.calculate_reach_advantage r1 r2) := by
  unfold BoxingDCIService.calculate_reach_advantage_checked
    BoxingDCIService.calculate_reach_advantage
  cases r1 <;> cases r2 <;> first | rfl | exact boxing_normalize_checked_ok _ _ _

theorem boxing_experience_checked_ok (t : ℚ) :
    BoxingDCIService.calculate_experience_factor_checked t =
      .ok (BoxingDCIService.calculate_experience_factor t) := by
  unfold BoxingDCIService.calculate_experience_factor_checked
    BoxingDCIService.calculate_experience_factor
  rw [sdiv_of_ne _ (by norm_num : ¬ (30:ℚ) = 0)]
  rfl

theorem boxing_win_streak_checked_ok (w : ℚ) :
    BoxingDCIService.calculate_win_streak_score_checked w =
      .ok (BoxingDCIService.calculate_win_streak_score w) := by
  unfold BoxingDCIService.calculate_win_streak_score_checked
    BoxingDCIService.calculate_win_streak_score
  rw [sdiv_of_ne _ (by norm_num : ¬ (7:ℚ) = 0)]
  rfl

theorem except_ok_bind {epsilon alpha beta : Type} (a : alpha)
    (f : alpha → Except epsilon beta) :
    (Except.ok a : Except epsilon alpha) >>= f = f a := rfl

theorem except_pure_eq_ok {epsilon alpha : Type} (a : alpha) :
    (pure a : Except epsilon alpha) = Except.ok a := rfl

theorem sdiv_of_pos (a : ℚ) {b : ℚ} (h : 0 < b) : sdiv a b = .ok (a / b) :=
  sdiv_of_ne a h.ne'

theorem boxing_extract_checked_ok (f : BoxingDCIService.Fighter) :
    BoxingDCIService.extract_fighter_factors_checked f =
      .ok (BoxingDCIService.extract_fighter_factors f) := by
  unfold BoxingDCIService.extract_fighter_factors_checked
    BoxingDCIService.extract_fighter_factors
  simp only [boxing_experience_checked_ok, boxing_win_streak_checked_ok,
    except_ok_bind, except_pure_eq_ok]
  split_ifs <;> simp_all [sdiv_of_pos, except_ok_bind, except_pure_eq_ok]

theorem sdiv_two (a : ℚ) : sdiv a 2 = .ok (a / 2) :=
  sdiv_of_ne a (by norm_num)

theorem mma_extract_checked_ok (f g : MMADCIService.Fighter) :
    MMADCIService.extract_factors_checked f g =
      .ok (MMADCIService.extract_factors f g) := by
  unfold MMADCIService.extract_factors_checked MMADCIService.extract_factors
  cases hsa : f.strike_accuracy <;> cases hts : f.takedown_success <;>
    simp only [except_ok_bind, except_pure_eq_ok, sdiv_two] <;>
    split_ifs <;> simp_all [sdiv_of_pos, except_ok_bind, except_pure_eq_ok]

theorem mma_normalize_checked_ok (s t : ℚ) :
    MMADCIService.normalize_score_checked s t =
      .ok (MMADCIService.normalize_score s t) := by
  simp only [MMADCIService.normalize_score_checked, MMADCIService.normalize_score]
  split_ifs with h
  · rfl
  · rw [sdiv_of_ne _ h]
    rfl

theorem boxing_calc_checked_ok (ff opp : BoxingDCIService.Factors) :
    BoxingDCIService.calculate_fighter_dci_checked ff opp =
      .ok (BoxingDCIService.calculate_fighter_dci ff opp) := by
  simp only [BoxingDCIService.calculate_fighter_dci_checked,
    BoxingDCIService.calculate_fighter_dci, boxing_reach_checked_ok,
    except_ok_bind, except_pure_eq_ok]

theorem boxing_compute_checked_ok (f g : BoxingDCIService.Fighter) :
    BoxingDCIService.compute_dci_checked f g =
      .ok (BoxingDCIService.compute_dci f g) := by
  simp only [BoxingDCIService.compute_dci_checked, BoxingDCIService.compute_dci,
    boxing_extract_checked_ok, boxing_calc_checked_ok, except_ok_bind, except_pure_eq_ok]

theorem mma_compute_checked_ok (f g : MMADCIService.Fighter) :
    MMADCIService.compute_dci_checked f g = .ok (MMADCIService.compute_dci f g) := by
  simp only [MMADCIService.compute_dci_checked, MMADCIService.compute_dci,
    mma_extract_checked_ok, mma_normalize_checked_ok, except_ok_bind, except_pure_eq_ok]

/-- C8: for every pair of fighter dictionaries (any subset of stat keys may be
absent), both scoring engines complete without raising: re-tracing every
Python division site of `compute_dci` in an error monad yields `.ok` of the
total computation — every missing factor falls back to its sport-specific
default and every division is guarded.  Purity and determinism hold by
construction: the embedded computations are functions of their arguments
alone, with no state. -/
theorem scoring_never_raises (b1 b2 : BoxingDCIService.Fighter)
    (m1 m2 : MMADCIService.Fighter) :
    BoxingDCIService.compute_dci_checked b1 b2 =
      .ok (BoxingDCIService.compute_dci b1 b2) ∧
    MMADCIService.compute_dci_checked m1 m2 =
      .ok (MMADCIService.compute_dci m1 m2) :=
  ⟨boxing_compute_checked_ok b1 b2, mma_compute_checked_ok m1 m2⟩

theorem boxing_scenario_score :
    (BoxingDCIService.compute_dci fighterA fighterB).1.score = 1172/15 := by
  norm_num [BoxingDCIService.compute_dci, BoxingDCIService.extract_fighter_factors,
    BoxingDCIService.calculate_fighter_dci, BoxingDCIService.calculate_reach_advantage,
    BoxingDCIService.normalize, BoxingDCIService.calculate_age_factor,
    BoxingDCIService.calculate_experience_factor, BoxingDCIService.calculate_win_streak_score,
    BoxingDCIService.derive_power_index, BoxingDCIService.derive_speed_index,
    BoxingDCIService.derive_stamina_index, BoxingDCIService.derive_defense_score,
    pyOr, pymin, pymax, pyInt, fighterA, fighterB]

theorem boxing_scenario_reasons :
    (BoxingDCIService.compute_dci fighterA fighterB).1.reasoning =
      ["strong power index", "high KO rate", "reach disadvantage", "excellent defense",
       "strong win streak"] := by
  norm_num [BoxingDCIService.compute_dci, BoxingDCIService.extract_fighter_factors,
    BoxingDCIService.generate_reasoning, BoxingDCIService.calculate_age_factor,
    BoxingDCIService.calculate_experience_factor, BoxingDCIService.calculate_win_streak_score,
    BoxingDCIService.derive_power_index, BoxingDCIService.derive_speed_index,
    BoxingDCIService.derive_stamina_index, BoxingDCIService.derive_defense_score,
    pyOr, pymin, pymax, pyInt, fighterA, fighterB]
  intro h
  simp at h

/-- C7: on the spec's concrete boxing scenario, fighter A's DCI score is
1172/15 ≈ 78.13 > 50, and A's reasoning mentions both the power index and the
KO rate. -/
theorem boxing_scenario_fighter_a :
    (BoxingDCIService.compute_dci fighterA fighterB).1.score > 50 ∧
    ("strong power index" ∈ (BoxingDCIService.compute_dci fighterA fighterB).1.reasoning ∨
     "high KO rate" ∈ (BoxingDCIService.compute_dci fighterA fighterB).1.reasoning) := by
  constructor
  · rw [boxing_scenario_score]
    norm_num
  · left
    rw [boxing_scenario_reasons]
    simp

theorem boxing_self_pair_score :
    (BoxingDCIService.compute_dci fighterA fighterA).1.score = 404/5 ∧
    (BoxingDCIService.compute_dci fighterA fighterA).2.score = 404/5 := by
  constructor <;>
    norm_num [BoxingDCIService.compute_dci, BoxingDCIService.extract_fighter_factors,
      BoxingDCIService.calculate_fighter_dci, BoxingDCIService.calculate_reach_advantage,
      BoxingDCIService.normalize, BoxingDCIService.calculate_age_factor,
      BoxingDCIService.calculate_experience_factor, BoxingDCIService.calculate_win_streak_score,
      BoxingDCIService.derive_power_index, BoxingDCIService.derive_speed_index,
      BoxingDCIService.derive_stamina_index, BoxingDCIService.derive_defense_score,
      pyOr, pymin, pymax, pyInt, fighterA]

/-- C4 counterexample: two boxing competitors with identical extracted factor
maps (fighter A against itself) both receive score 404/5 = 80.8 — not 50.0 —
and classification "Balanced Advantage" — not the even-matchup tier — because
`BoxingDCIService.compute_dci` does not normalize relative to the opponent. -/
theorem identical_factors_counterexample :
    BoxingDCIService.extract_fighter_factors fighterA =
      BoxingDCIService.extract_fighter_factors fighterA ∧
    ¬ (BoxingDCIService.compute_dci fighterA fighterA).1.score = 50 ∧
    (BoxingDCIService.compute_dci fighterA fighterA).1.score = 404/5 ∧
    (BoxingDCIService.compute_dci fighterA fighterA).1.classification =
      "Balanced Advantage" ∧
    ¬ (BoxingDCIService.compute_dci fighterA fighterA).1.classification =
      "Even Matchup" := by
  have hs := boxing_self_pair_score.1
  have hcls : (BoxingDCIService.compute_dci fighterA fighterA).1.classification =
      BoxingDCIService.classify_dci
        ((BoxingDCIService.compute_dci fighterA fighterA).1.score) := rfl
  refine ⟨rfl, ?_, hs, ?_, ?_⟩
  · rw [hs]
    norm_num
  · rw [hcls, hs]
    norm_num [BoxingDCIService.classify_dci]
  · rw [hcls, hs]
    norm_num [BoxingDCIService.classify_dci]
    simp

theorem pyRound_intCast (n : ℤ) : pyRound (n : ℚ) = n := by
  norm_num [pyRound, Int.floor_intCast]

theorem round2_fifty : round2 50 = 50 := by
  have h : (50 : ℚ) * 100 = ((5000 : ℤ) : ℚ) := by norm_num
  rw [round2, h, pyRound_intCast]
  norm_num

theorem normalize_score_self (s : ℚ) :
    MMADCIService.normalize_score s s = 50 := by
  simp only [MMADCIService.normalize_score]
  split_ifs with h
  · rfl
  · have hs : ¬ s = 0 := by
      intro hc
      exact h (by rw [hc]; ring)
    have : s / (s + s) * 100 = 50 := by
      field_simp
      ring
    rw [this, round2_fifty]

/-- C4 amended: with identical extracted factor maps the MMA engine does give
both fighters exactly 50.0 and the balanced tier (labelled "Balanced Match");
the boxing engine gives both fighters equal scores and equal classifications,
but the common score is the clamped absolute weighted sum — not 50 in
general — and the tier follows that sum. -/
theorem identical_factors_amended (m1 m2 : MMADCIService.Fighter)
    (b1 b2 : BoxingDCIService.Fighter)
    (hm : MMADCIService.extract_factors m1 m2 = MMADCIService.extract_factors m2 m1)
    (hb : BoxingDCIService.extract_fighter_factors b1 =
      BoxingDCIService.extract_fighter_factors b2) :
    (MMADCIService.compute_dci m1 m2).1.dci_score = 50 ∧
    (MMADCIService.compute_dci m1 m2).2.dci_score = 50 ∧
    (MMADCIService.compute_dci m1 m2).1.classification = "Balanced Match" ∧
    (MMADCIService.compute_dci m1 m2).2.classification = "Balanced Match" ∧
    (BoxingDCIService.compute_dci b1 b2).1.score =
      (BoxingDCIService.compute_dci b1 b2).2.score ∧
    (BoxingDCIService.compute_dci b1 b2).1.classification =
      (BoxingDCIService.compute_dci b1 b2).2.classification := by
  have hcls : MMADCIService.get_classification 50 = "Balanced Match" := by
    norm_num [MMADCIService.get_classification]
  simp only [MMADCIService.compute_dci, BoxingDCIService.compute_dci, hm, hb]
  simp [normalize_score_self, hcls]

/-- Witness for `identical_factors_amended`: the all-defaults MMA fighter
against itself, and boxing fighter A against itself. -/
theorem identical_factors_amended_witness :
    (MMADCIService.compute_dci {} {}).1.dci_score = 50 ∧
    (MMADCIService.compute_dci ({} : MMADCIService.Fighter)
      ({} : MMADCIService.Fighter)).1.classification = "Balanced Match" ∧
    (BoxingDCIService.compute_dci fighterA fighterA).1.classification =
      (BoxingDCIService.compute_dci fighterA fighterA).2.classification :=
  ⟨(identical_factors_amended {} {} fighterA fighterA rfl rfl).1,
   (identical_factors_amended {} {} fighterA fighterA rfl rfl).2.2.1,
   (identical_factors_amended {} {} fighterA fighterA rfl rfl).2.2.2.2.2⟩

theorem mma_factors_nonneg (f g : MMADCIService.Fighter) (hf : MMAValid f) :
    0 ≤ (MMADCIService.extract_factors f g).strike_accuracy ∧
    0 ≤ (MMADCIService.extract_factors f g).takedown_success ∧
    0 ≤ (MMADCIService.extract_factors f g).stamina ∧
    0 ≤ (MMADCIService.extract_factors f g).significant_strikes ∧
    0 ≤ (MMADCIService.extract_factors f g).defense_efficiency ∧
    0 ≤ (MMADCIService.extract_factors f g).reach_advantage ∧
    0 ≤ (MMADCIService.extract_factors f g).recent_win_streak ∧
    50 ≤ (MMADCIService.extract_factors f g).age_experience_factor := by
  obtain ⟨hsa, hts, hls, htd, hta, htl, hst, htf, hfin, hsig, hdef, habs, hr, hws, hage⟩ := hf
  simp only [MMADCIService.extract_factors]
  refine ⟨?_, ?_, ?_, ?_, ?_, ?_, ?_, ?_⟩
  · cases h : f.strike_accuracy with
    | some v => simpa [nn, h] using hsa
    | none =>
      split_ifs with hpos
      · have hl : 0 ≤ (f.landed_strikes).getD 0 := hls
        exact mul_nonneg (div_nonneg hl (le_of_lt hpos)) (by norm_num)
      · norm_num
  · cases h : f.takedown_success with
    | some v => simpa [nn, h] using htd
    | none =>
      split_ifs with hpos
      · have hl : 0 ≤ (f.takedowns_landed).getD 0 := htl
        exact mul_nonneg (div_nonneg hl (le_of_lt hpos)) (by norm_num)
      · norm_num
  · cases h : f.stamina_index with
    | some v => simpa [nn, h] using hst
    | none =>
      rw [pymin_eq, pymax_eq]
      exact le_min (by norm_num) (le_max_left _ _)
  · have hv : 0 ≤ (f.significant_strikes_per_min).getD 3.5 := by
      cases h : f.significant_strikes_per_min with
      | some v => simpa [nn, h] using hsig
      | none => norm_num
    exact mul_nonneg hv (by norm_num)
  · cases h : f.defense_efficiency with
    | some v => simpa [nn, h] using hdef
    | none =>
      rw [pymax_eq]
      exact le_max_left _ _
  · rw [pymin_eq, pymax_eq]
    exact le_min (by norm_num) (le_max_left _ _)
  · rw [pymin_eq]
    have hv : 0 ≤ (f.win_streak).getD 0 := hws
    exact le_min (by norm_num) (by nlinarith)
  · rw [pymin_eq]
    refine le_min (by norm_num) ?_
    split_ifs <;> norm_num

theorem mma_score_ge_five (f g : MMADCIService.Fighter) (hf : MMAValid f) :
    5 ≤ MMADCIService.calculate_score (MMADCIService.extract_factors f g) := by
  obtain ⟨c1, c2, c3, c4, c5, c6, c7, c8⟩ := mma_factors_nonneg f g hf
  unfold MMADCIService.calculate_score
  nlinarith [c1, c2, c3, c4, c5, c6, c7, c8]

theorem normalize_score_pair (s1 s2 : ℚ) (h1 : 0 ≤ s1) (h2 : 0 ≤ s2)
    (hpos : 0 < s1 + s2) :
    0 ≤ MMADCIService.normalize_score s1 s2 ∧
    MMADCIService.normalize_score s1 s2 ≤ 100 ∧
    |MMADCIService.normalize_score s1 s2 + MMADCIService.normalize_score s2 s1 - 100|
      ≤ 1/100 := by
  have hne : ¬ s1 + s2 = 0 := ne_of_gt hpos
  have hne2 : ¬ s2 + s1 = 0 := by rw [add_comm]; exact hne
  simp only [MMADCIService.normalize_score, if_neg hne, if_neg hne2]
  have hx0 : 0 ≤ s1 / (s1 + s2) * 100 :=
    mul_nonneg (div_nonneg h1 (le_of_lt hpos)) (by norm_num)
  have hx100 : s1 / (s1 + s2) * 100 ≤ 100 := by
    rw [div_mul_eq_mul_div, div_le_iff₀ hpos]
    linarith
  have hsum : s1 / (s1 + s2) * 100 + s2 / (s2 + s1) * 100 = 100 := by
    rw [add_comm s2 s1]
    field_simp
    ring
  have b1 := round2_le (s1 / (s1 + s2) * 100)
  have b2 := le_round2 (s1 / (s1 + s2) * 100)
  have b3 := round2_le (s2 / (s2 + s1) * 100)
  have b4 := le_round2 (s2 / (s2 + s1) * 100)
  refine ⟨round2_nonneg hx0, round2_le_100 hx100, ?_⟩
  rw [abs_le]
  constructor <;> linarith

theorem boxing_dci_bounds (ff opp : BoxingDCIService.Factors) :
    0 ≤ BoxingDCIService.calculate_fighter_dci ff opp ∧
    BoxingDCIService.calculate_fighter_dci ff opp ≤ 100 := by
  simp only [BoxingDCIService.calculate_fighter_dci, pymax_eq, pymin_eq]
  exact ⟨le_max_left _ _, max_le (by norm_num) (min_le_left _ _)⟩

/-- C1 amended: `MMADCIService.compute_dci` returns, for every pair of valid
stat bundles, two scores in [0,100] summing to 100 within a tolerance of
0.01, with a neutral 50/50 split when both raw weighted scores are zero;
`BoxingDCIService.compute_dci` returns two scores that each lie in [0,100],
but they are independently clamped weighted sums that need not sum to 100. -/
theorem dci_pair_invariant (m1 m2 : MMADCIService.Fighter)
    (h1 : MMAValid m1) (h2 : MMAValid m2) (b1 b2 : BoxingDCIService.Fighter) :
    0 ≤ (MMADCIService.compute_dci m1 m2).1.dci_score ∧
    (MMADCIService.compute_dci m1 m2).1.dci_score ≤ 100 ∧
    0 ≤ (MMADCIService.compute_dci m1 m2).2.dci_score ∧
    (MMADCIService.compute_dci m1 m2).2.dci_score ≤ 100 ∧
    |(MMADCIService.compute_dci m1 m2).1.dci_score +
      (MMADCIService.compute_dci m1 m2).2.dci_score - 100| ≤ 1/100 ∧
    MMADCIService.normalize_score 0 0 = 50 ∧
    0 ≤ (BoxingDCIService.compute_dci b1 b2).1.score ∧
    (BoxingDCIService.compute_dci b1 b2).1.score ≤ 100 ∧
    0 ≤ (BoxingDCIService.compute_dci b1 b2).2.score ∧
    (BoxingDCIService.compute_dci b1 b2).2.score ≤ 100 := by
  have s1 := mma_score_ge_five m1 m2 h1
  have s2 := mma_score_ge_five m2 m1 h2
  have hpos : 0 < MMADCIService.calculate_score (MMADCIService.extract_factors m1 m2) +
      MMADCIService.calculate_score (MMADCIService.extract_factors m2 m1) := by linarith
  have hpos2 : 0 < MMADCIService.calculate_score (MMADCIService.extract_factors m2 m1) +
      MMADCIService.calculate_score (MMADCIService.extract_factors m1 m2) := by linarith
  obtain ⟨a1, a2, a3⟩ := normalize_score_pair _ _ (by linarith) (by linarith) hpos
  obtain ⟨d1, d2, _⟩ := normalize_score_pair _ _ (by linarith) (by linarith) hpos2
  have hzero : MMADCIService.normalize_score 0 0 = 50 := by
    norm_num [MMADCIService.normalize_score]
  obtain ⟨e1, e2⟩ := boxing_dci_bounds (BoxingDCIService.extract_fighter_factors b1)
    (BoxingDCIService.extract_fighter_factors b2)
  obtain ⟨e3, e4⟩ := boxing_dci_bounds (BoxingDCIService.extract_fighter_factors b2)
    (BoxingDCIService.extract_fighter_factors b1)
  simp only [MMADCIService.compute_dci, BoxingDCIService.compute_dci]
  exact ⟨a1, a2, d1, d2, a3, hzero, e1, e2, e3, e4⟩

/-- C1 counterexample: the two boxing scores of fighter A against itself are
each 404/5 = 80.8, so their sum 808/5 = 161.6 misses 100 by far more than the
0.01 tolerance — `BoxingDCIService.compute_dci` does not normalize the pair. -/
theorem dci_sum_counterexample :
    (BoxingDCIService.compute_dci fighterA fighterA).1.score +
      (BoxingDCIService.compute_dci fighterA fighterA).2.score = 808/5 ∧
    ¬ |(BoxingDCIService.compute_dci fighterA fighterA).1.score +
        (BoxingDCIService.compute_dci fighterA fighterA).2.score - 100| ≤ 1/100 := by
  obtain ⟨hs1, hs2⟩ := boxing_self_pair_score
  constructor
  · rw [hs1, hs2]
    norm_num
  · rw [hs1, hs2, show (404/5 + 404/5 - 100 : ℚ) = 308/5 by norm_num,
      abs_of_pos (by norm_num : (0:ℚ) < 308/5)]
    norm_num

/-- Witness for `dci_pair_invariant` at the repository's mock UFC fighters and
the spec's boxing scenario fighters. -/
theorem dci_pair_invariant_witness :
    MMAValid mmaFighterOne ∧ MMAValid mmaFighterTwo ∧
    |(MMADCIService.compute_dci mmaFighterOne mmaFighterTwo).1.dci_score +
      (MMADCIService.compute_dci mmaFighterOne mmaFighterTwo).2.dci_score - 100| ≤ 1/100 ∧
    0 ≤ (BoxingDCIService.compute_dci fighterA fighterB).1.score :=
  ⟨by norm_num [MMAValid, nn, mmaFighterOne],
   by norm_num [MMAValid, nn, mmaFighterTwo],
   (dci_pair_invariant mmaFighterOne mmaFighterTwo
      (by norm_num [MMAValid, nn, mmaFighterOne])
      (by norm_num [MMAValid, nn, mmaFighterTwo]) fighterA fighterB).2.2.2.2.1,
   (dci_pair_invariant mmaFighterOne mmaFighterTwo
      (by norm_num [MMAValid, nn, mmaFighterOne])
      (by norm_num [MMAValid, nn, mmaFighterTwo]) fighterA fighterB).2.2.2.2.2.2.1⟩
